import Mathlib

/-!
Shallow embedding of the grant-protocol engine of the `deno-oauth2-client`
repository: the authorization-code grant (request builder, redirect-response
validation, token-response parsing), the legacy `CodeFlow` variant, the
resource-owner-password-credentials token request, and the OIDC layer
(ID-token claim validation, `at_hash` binding, UserInfo retrieval).

JavaScript platform primitives (JSON values, `URLSearchParams`,
`URL` parsing for the plain-ASCII fragment exercised here, `btoa`, the
deno std base64 encoder) are modelled executably below; injected
capabilities (`crypto.subtle.digest`, `verifyJwt`) are passed as function
parameters, mirroring how the source treats them as external.
-/

/-- A JSON value as it occurs in the fields relevant to this client:
strings, numbers, booleans, null, and arrays of strings (ID-token `aud` and
`amr` claims).  Mirrors the value fragment the source inspects with
`typeof` / `Array.isArray`. -/
inductive JValue where
  | jStr (s : String)
  | jNum (n : Int)
  | jBool (b : Bool)
  | jNull
  | jStrArr (xs : List String)
deriving DecidableEq, Repr

/-- A parsed top-level JSON document, classified the way
`parseTokenResponse` classifies it: a plain object (association list of
fields), an array, `null`, or a primitive. -/
inductive JBody where
  | jobj (fields : List (String × JValue))
  | jarr
  | jnull
  | jprim
deriving DecidableEq, Repr

/-- First-match field lookup on a JSON object, as JavaScript property access
`body[key]` behaves on plain parsed-JSON objects (which have unique keys). -/
def jGet (fields : List (String × JValue)) (key : String) : Option JValue :=
  (fields.find? (fun p => p.1 = key)).map (·.2)

/-- JavaScript truthiness of a (possibly absent) JSON value:
`undefined`, `null`, `""`, `0` and `false` are falsy. -/
def jsTruthy : Option JValue → Bool
  | none => false
  | some (.jStr s) => s ≠ ""
  | some (.jNum n) => n ≠ 0
  | some (.jBool b) => b
  | some .jNull => false
  | some (.jStrArr _) => true

/-- `typeof v === "string"` (the `isString` validator of `oidc/validation.ts`). -/
def isString : JValue → Bool
  | .jStr _ => true
  | _ => false

/-- `typeof v === "number"` (the `isNumber` validator of `oidc/validation.ts`). -/
def isNumber : JValue → Bool
  | .jNum _ => true
  | _ => false

/-- `Array.isArray(v) && v.every(isString)` (the `isStringArray` validator). -/
def isStringArray : JValue → Bool
  | .jStrArr _ => true
  | _ => false

/-- `Array.isArray(v) ? v.every(isString) : isString(v)`
(the `isStringOrStringArray` validator). -/
def isStringOrStringArray : JValue → Bool
  | .jStr _ => true
  | .jStrArr _ => true
  | _ => false

/-- `valueOrArrayToArray` from the source: wrap a single string, keep arrays. -/
def valueOrArrayToArray : JValue → List String
  | .jStr s => [s]
  | .jStrArr xs => xs
  | _ => []

section Base64

/-- The standard base64 alphabet used by `btoa` and by
`deno.land/std/encoding/base64.ts`. -/
def b64StdAlphabet : String :=
  "ABCDEFGHIJKLMNOPQRSTUVWXYZabcdefghijklmnopqrstuvwxyz0123456789+/"

/-- The base64url alphabet (RFC 4648 §5). -/
def b64UrlAlphabet : String :=
  "ABCDEFGHIJKLMNOPQRSTUVWXYZabcdefghijklmnopqrstuvwxyz0123456789-_"

/-- Character `n` (0–63) of a base64 alphabet. -/
def b64char (table : String) (n : Nat) : Char :=
  table.data.getD n 'A'

/-- Core of the padded standard base64 encoder: three input bytes become four
alphabet characters; a final one- or two-byte group is padded with `=`.
This is the behaviour of `encode` from `deno.land/std@0.161.0/encoding/base64.ts`
(and of `btoa` on a byte string). -/
def b64core (t : String) : List Nat → String
  | [] => ""
  | [b1] =>
    String.mk [b64char t (b1 / 4), b64char t (b1 % 4 * 16)] ++ "=="
  | [b1, b2] =>
    String.mk [b64char t (b1 / 4), b64char t (b1 % 4 * 16 + b2 / 16),
      b64char t (b2 % 16 * 4)] ++ "="
  | b1 :: b2 :: b3 :: rest =>
    String.mk [b64char t (b1 / 4), b64char t (b1 % 4 * 16 + b2 / 16),
      b64char t (b2 % 16 * 4 + b3 / 64), b64char t (b3 % 64)] ++ b64core t rest

/-- `encode` from `deno.land/std@0.161.0/encoding/base64.ts`: standard
alphabet, `=`-padded.  This is what `AuthorizationCodeFlow.validateAccessToken`
imports (as `base64Encode`) and applies to the hash's left half. -/
def base64Encode (bs : List Nat) : String := b64core b64StdAlphabet bs

/-- Core of an unpadded base64url encoder: like `b64core` but emitting no
`=` padding for a trailing one- or two-byte group. -/
def b64urlCore : List Nat → String
  | [] => ""
  | [b1] =>
    String.mk [b64char b64UrlAlphabet (b1 / 4), b64char b64UrlAlphabet (b1 % 4 * 16)]
  | [b1, b2] =>
    String.mk [b64char b64UrlAlphabet (b1 / 4),
      b64char b64UrlAlphabet (b1 % 4 * 16 + b2 / 16),
      b64char b64UrlAlphabet (b2 % 16 * 4)]
  | b1 :: b2 :: b3 :: rest =>
    String.mk [b64char b64UrlAlphabet (b1 / 4),
      b64char b64UrlAlphabet (b1 % 4 * 16 + b2 / 16),
      b64char b64UrlAlphabet (b2 % 16 * 4 + b3 / 64),
      b64char b64UrlAlphabet (b3 % 64)] ++ b64urlCore rest

/-- Modelled from the spec: the OIDC-mandated `at_hash` encoding, the
"base64url encoding (without padding)" of the left half of the hash.  Used
only to compare the source's actual encoding against the specified one. -/
def specBase64UrlNoPad (bs : List Nat) : String := b64urlCore bs

/-- `btoa` on an ASCII string (used for HTTP Basic credentials). -/
def btoa (s : String) : String := base64Encode (s.data.map Char.toNat)

/-- The ASCII/UTF-8 bytes of a string (`TextEncoder.encode` on the ASCII
token strings exercised here). -/
def strBytes (s : String) : List Nat := s.data.map Char.toNat

end Base64

section Errors

/-- The data carried by `OAuth2ResponseError` / `AuthError` (errors.ts): the
server-reported protocol error.  Fields other than `error` are copied
verbatim from the parsed body / redirect parameters, hence `Option JValue`. -/
structure OAuth2ErrorData where
  error : String
  errorDescription : Option JValue := none
  errorUri : Option JValue := none
  state : Option JValue := none
deriving DecidableEq, Repr

/-- The error taxonomy of `errors.ts` as raised by the grant engine:
local authorization-response validation failures, server-reported protocol
errors, malformed token responses, and UserInfo failures. -/
inductive OAuthFailure where
  | authResponse (msg : String)
  | oauthResponse (e : OAuth2ErrorData)
  | tokenResponse (msg : String)
  | userInfo (msg : String)
deriving DecidableEq, Repr

end Errors

section UrlModel

/-- The slice of a WHATWG `URL` object the grant code reads: scheme, host
(with port), pathname and the raw search string (leading `?` included when
non-empty, as `url.search` reports it). -/
structure UrlParts where
  scheme : String
  host : String
  pathname : String
  search : String
deriving DecidableEq, Repr

/-- Render a `UrlParts` back to text, as string interpolation of a `URL`
object does in the error message of the missing-parameters check. -/
def urlToString (u : UrlParts) : String :=
  u.scheme ++ "://" ++ u.host ++ u.pathname ++ u.search

/-- Split a character list at each occurrence of the separator; the result
always has one more piece than there are separators. -/
def splitOnChar (c : Char) : List Char → List (List Char)
  | [] => [[]]
  | x :: xs =>
    match splitOnChar c xs with
    | [] => [[]]
    | y :: ys => if x = c then [] :: y :: ys else (x :: y) :: ys

/-- Split a search-parameter segment at its first `=`: the key, and the
value (everything after the first `=`, absent when there is none). -/
def splitFirstEq : List Char → List Char × Option (List Char)
  | [] => ([], none)
  | x :: xs =>
    if x = '=' then ([], some xs)
    else
      let r := splitFirstEq xs
      (x :: r.1, r.2)

/-- Split an absolute URL's characters at the first `://` marker. -/
def splitSchemeMarker : List Char → Option (List Char × List Char)
  | [] => none
  | ':' :: '/' :: '/' :: rest => some ([], rest)
  | x :: xs => (splitSchemeMarker xs).map (fun p => (x :: p.1, p.2))

/-- Parse an absolute URL of the plain-ASCII shape
`scheme://host[/path][?query]` (the shape of every endpoint / redirect URI
in this development) into its parts, with pathname defaulting to `/`. -/
def parseAbsoluteUrl (s : String) : UrlParts :=
  match splitSchemeMarker s.data with
  | none => { scheme := s, host := "", pathname := "/", search := "" }
  | some (schemeCs, rest) =>
    let host := rest.takeWhile (fun c => c ≠ '/' ∧ c ≠ '?')
    let after := rest.drop host.length
    match after with
    | '/' :: _ =>
      let path := after.takeWhile (fun c => c ≠ '?')
      { scheme := String.mk schemeCs, host := String.mk host,
        pathname := String.mk path, search := String.mk (after.drop path.length) }
    | _ =>
      { scheme := String.mk schemeCs, host := String.mk host,
        pathname := "/", search := String.mk after }

/-- `new URL(s, base)` for the inputs the grant code feeds it: absolute
URLs parse on their own; path-absolute strings (`/path?query`) take scheme
and host from the base; query-only strings keep the base's path; any other
relative string resolves against the base's root path (the base used by the
source, `http://ignored`, has pathname `/`). -/
def resolveUrl (s : String) (base : UrlParts) : UrlParts :=
  if (splitSchemeMarker s.data).isSome then parseAbsoluteUrl s
  else
    match s.data with
    | '/' :: _ =>
      let path := s.data.takeWhile (fun c => c ≠ '?')
      { scheme := base.scheme, host := base.host, pathname := String.mk path,
        search := String.mk (s.data.drop path.length) }
    | '?' :: _ => { base with search := s }
    | _ =>
      let path := s.data.takeWhile (fun c => c ≠ '?')
      { scheme := base.scheme, host := base.host, pathname := String.mk ('/' :: path),
        search := String.mk (s.data.drop path.length) }

/-- The argument of `AuthorizationCodeGrant.getToken`: a `URL` object or a
string. -/
inductive UrlOrString where
  | url (u : UrlParts)
  | str (s : String)

/-- `AuthorizationCodeGrant.toUrl`: a `URL` passes through; a string is
resolved against the fixed dummy base `http://ignored`. -/
def toUrl : UrlOrString → UrlParts
  | .url u => u
  | .str s => resolveUrl s { scheme := "http", host := "ignored", pathname := "/", search := "" }

/-- `URLSearchParams` parsing of a search string (plain-ASCII fragment,
no percent- or plus-decoding needed by any input in this development):
strip a leading `?`, split on `&`, drop empty segments, split each segment
at its first `=`. -/
def parseSearchParams (s : String) : List (String × String) :=
  let body := match s.data with
    | '?' :: rest => rest
    | cs => cs
  ((splitOnChar '&' body).filter (fun seg => seg ≠ [])).map fun seg =>
    let p := splitFirstEq seg
    (String.mk p.1, String.mk (p.2.getD []))

/-- `params.get(k)`: the first value for the key, or null. -/
def paramsGet (ps : List (String × String)) (k : String) : Option String :=
  (ps.find? (fun p => p.1 = k)).map (·.2)

/-- `params.has(k)`. -/
def paramsHas (ps : List (String × String)) (k : String) : Bool :=
  (paramsGet ps k).isSome

end UrlModel

section Config

/-- Scope as accepted by the client: a single string or an array of strings. -/
inductive ScopeValue where
  | one (s : String)
  | many (xs : List String)
deriving DecidableEq, Repr

/-- JavaScript truthiness of an (optional) scope value: `""` is falsy, any
array (even empty) is truthy. -/
def scopeTruthy : Option ScopeValue → Bool
  | none => false
  | some (.one s) => s ≠ ""
  | some (.many _) => true

/-- `Array.isArray(scope) ? scope.join(" ") : scope`. -/
def scopeJoin : ScopeValue → String
  | .one s => s
  | .many xs => String.intercalate " " xs

/-- `RequestOptions`: extra headers, URL parameters and body fields. -/
structure ReqOptions where
  headers : List (String × String) := []
  params : List (String × String) := []
  body : List (String × String) := []

/-- The client's `defaults` configuration block. -/
structure ConfigDefaults where
  requestOptions : Option ReqOptions := none
  scope : Option ScopeValue := none
  stateValidator : Option (Option String → Bool) := none

/-- `OAuth2ClientConfig` (the fields the embedded operations read). -/
structure ClientConfig where
  clientId : String
  clientSecret : Option String := none
  authorizationEndpointUri : String
  tokenUri : String
  redirectUri : Option String := none
  defaults : Option ConfigDefaults := none

/-- `GetUriOptions` of the authorization-URI builders. -/
structure GetUriOptions where
  state : Option String := none
  scope : Option ScopeValue := none

/-- `GetTokenOptions` of `AuthorizationCodeGrant.getToken`: an expected
state value and/or a state-validator callback. -/
structure GetTokenOptions where
  state : Option String := none
  stateValidator : Option (Option String → Bool) := none
  requestOptions : Option ReqOptions := none

end Config

section SpreadMerge

/-- JavaScript object spread `{...a, ...b}` modelled at lookup level:
keys of `b` shadow keys of `a`.  The merged object is represented as an
association list whose first match realises the shadowing. -/
def spreadMerge (a b : List (String × String)) : List (String × String) :=
  b ++ a

/-- Lookup in a spread of optional `RequestOptions` pieces. -/
theorem paramsGet_spreadMerge (a b : List (String × String)) (k : String) :
    paramsGet (spreadMerge a b) k = (paramsGet b k).orElse (fun _ => paramsGet a k) := by
  simp only [spreadMerge, paramsGet, List.find?_append]
  cases b.find? (fun p => p.1 = k) <;> simp [Option.orElse]

end SpreadMerge

section FromURLSearchParams

namespace AuthError

/-- `AuthError.fromURLSearchParams` (errors.ts): build the protocol error
from the `error`, `error_description`, `error_uri` and `state` redirect
parameters.  Requires the `error` parameter (the caller checks `has`);
modelled totally with the checked default `""` never reached by callers. -/
def fromURLSearchParams (ps : List (String × String)) : OAuth2ErrorData :=
  { error := (paramsGet ps "error").getD ""
    errorDescription := (paramsGet ps "error_description").map .jStr
    errorUri := (paramsGet ps "error_uri").map .jStr
    state := (paramsGet ps "state").map .jStr }

end AuthError

end FromURLSearchParams

section ACGrant

namespace AuthorizationCodeGrant

/-- The validated authorization response: the code, and the state when
the received state is truthy. -/
structure ValidatedResponse where
  code : String
  state : Option String := none
deriving DecidableEq, Repr

/-- The state validator actually applied, per the source's chain
`options.stateValidator ?? (options.state && (s => s === options.state)) ??
config.defaults?.stateValidator`.  Note `options.state = ""` makes the
middle operand `""` (not nullish), which is falsy, so no validator at all
is applied in that case. -/
def resolveStateValidator (config : ClientConfig) (options : GetTokenOptions) :
    Option (Option String → Bool) :=
  match options.stateValidator with
  | some v => some v
  | none =>
    match options.state with
    | some s => if s = "" then none else some (fun st => st = some s)
    | none => config.defaults.bind (·.stateValidator)

/-- The parameter-level part of
`AuthorizationCodeGrant.validateAuthorizationResponse` (everything after the
redirect-path check): missing-parameters check, `error` passthrough,
`code` presence, state validation. -/
def validateResponseParams (config : ClientConfig) (url : UrlParts)
    (options : GetTokenOptions) : Except OAuthFailure ValidatedResponse :=
  if url.search = "" ∨ url.search.data.tail = [] then
    .error (.authResponse ("URI does not contain callback parameters: " ++ urlToString url))
  else
    let params := parseSearchParams url.search
    if paramsHas params "error" then
      .error (.oauthResponse (AuthError.fromURLSearchParams params))
    else
      let code := (paramsGet params "code").getD ""
      if code = "" then
        .error (.authResponse "Missing code, unable to request token")
      else
        let state := paramsGet params "state"
        match resolveStateValidator config options with
        | some validator =>
          if !validator state then
            match state with
            | none => .error (.authResponse "Missing state")
            | some s => .error (.authResponse ("Invalid state: " ++ s))
          else
            .ok { code := code, state := if state.getD "" = "" then none else state }
        | none =>
          .ok { code := code, state := if state.getD "" = "" then none else state }

/-- `AuthorizationCodeGrant.validateAuthorizationResponse`
(src/authorization_code_grant.ts, lines 134–189): redirect-path check (the
configured redirect URI is compared by pathname only), then
`validateResponseParams`. -/
def validateAuthorizationResponse (config : ClientConfig) (url : UrlParts)
    (options : GetTokenOptions) : Except OAuthFailure ValidatedResponse :=
  match config.redirectUri with
  | some r =>
    if url.pathname ≠ (parseAbsoluteUrl r).pathname then
      .error (.authResponse ("Redirect path should match configured path, but got: " ++ url.pathname))
    else validateResponseParams config url options
  | none => validateResponseParams config url options

/-- The outgoing token request as the builder assembles it: URL parameters
appended to the token endpoint, merged headers, merged form body. -/
structure TokenRequest where
  url : String
  urlParams : List (String × String)
  method : String
  headers : List (String × String)
  body : List (String × String)

/-- `AuthorizationCodeGrant.buildAccessTokenRequest`
(src/authorization_code_grant.ts, lines 191–239): protocol body fields,
built-in headers, Basic auth for confidential clients / body `client_id`
for public clients, and the spread-merge of default and call-level
request options. -/
def buildAccessTokenRequest (config : ClientConfig) (code : String)
    (requestOptions : Option ReqOptions) : TokenRequest :=
  let ro := requestOptions.getD {}
  let defRo := (config.defaults.bind (·.requestOptions)).getD {}
  let requestParams :=
    [("grant_type", "authorization_code"), ("code", code)]
      ++ (match config.redirectUri with
          | some r => [("redirect_uri", r)]
          | none => [])
      ++ (match config.clientSecret with
          | some _ => []
          | none => [("client_id", config.clientId)])
  let headers :=
    [("Content-Type", "application/x-www-form-urlencoded"), ("Accept", "application/json")]
      ++ (match config.clientSecret with
          | some sec => [("Authorization", "Basic " ++ btoa (config.clientId ++ ":" ++ sec))]
          | none => [])
  { url := config.tokenUri
    urlParams := spreadMerge defRo.params ro.params
    method := "POST"
    headers := spreadMerge (spreadMerge headers defRo.headers) ro.headers
    body := spreadMerge (spreadMerge requestParams defRo.body) ro.body }

/-- The `Tokens` record (src/authorization_code_grant.ts, lines 53–78). -/
structure Tokens where
  accessToken : String
  tokenType : String
  expiresIn : Option Int := none
  refreshToken : Option String := none
  scope : Option (List String) := none
deriving DecidableEq, Repr

/-- A completed token-endpoint HTTP response: status, and the result of
parsing its body as JSON (`none` = the body is not valid JSON). -/
structure TokenResponse where
  status : Nat
  body : Option JBody
deriving DecidableEq, Repr

/-- `Response.ok`: status in the 2xx range. -/
def responseOk (r : TokenResponse) : Bool :=
  200 ≤ r.status ∧ r.status ≤ 299

/-- `AuthorizationCodeGrant.getTokenResponseError`
(src/authorization_code_grant.ts, lines 322–338): try to read a protocol
error from the JSON body; any parse failure, non-object body or missing /
non-string `error` field degrades to the generic `TokenResponseError`
naming the HTTP status. -/
def getTokenResponseError (r : TokenResponse) : OAuthFailure :=
  match r.body with
  | some (.jobj fields) =>
    match jGet fields "error" with
    | some (.jStr e) =>
      .oauthResponse
        { error := e
          errorDescription := jGet fields "error_description"
          errorUri := jGet fields "error_uri"
          state := jGet fields "state" }
    | _ => .tokenResponse ("Server returned " ++ toString r.status ++ " and no error description was given")
  | _ => .tokenResponse ("Server returned " ++ toString r.status ++ " and no error description was given")

/-- `AuthorizationCodeGrant.parseTokenResponse`
(src/authorization_code_grant.ts, lines 245–320): classify by status,
require a JSON object body, type-check each field, then build the `Tokens`
record; `refresh_token` / `expires_in` / `scope` are set only when truthy. -/
def parseTokenResponse (r : TokenResponse) : Except OAuthFailure Tokens :=
  if !responseOk r then .error (getTokenResponseError r)
  else
    match r.body with
    | none => .error (.tokenResponse "Response is not JSON encoded")
    | some .jarr => .error (.tokenResponse "body is not a JSON object")
    | some .jnull => .error (.tokenResponse "body is not a JSON object")
    | some .jprim => .error (.tokenResponse "body is not a JSON object")
    | some (.jobj fields) =>
      match jGet fields "access_token" with
      | some (.jStr accessToken) =>
        match jGet fields "token_type" with
        | some (.jStr tokenType) =>
          if (jGet fields "refresh_token").isSome ∧ ¬((jGet fields "refresh_token").all isString) then
            .error (.tokenResponse "refresh_token is not a string")
          else if (jGet fields "expires_in").isSome ∧ ¬((jGet fields "expires_in").all isNumber) then
            .error (.tokenResponse "expires_in is not a number")
          else if (jGet fields "scope").isSome ∧ ¬((jGet fields "scope").all isString) then
            .error (.tokenResponse "scope is not a string")
          else
            .ok
              { accessToken := accessToken
                tokenType := tokenType
                refreshToken :=
                  match jGet fields "refresh_token" with
                  | some (.jStr s) => if s = "" then none else some s
                  | _ => none
                expiresIn :=
                  match jGet fields "expires_in" with
                  | some (.jNum n) => if n = 0 then none else some n
                  | _ => none
                scope :=
                  match jGet fields "scope" with
                  | some (.jStr s) => if s = "" then none else some (s.splitOn " ")
                  | _ => none }
        | v => .error (.tokenResponse (if jsTruthy v then "token_type is not a string" else "missing token_type"))
      | v => .error (.tokenResponse (if jsTruthy v then "access_token is not a string" else "missing access_token"))

/-- `AuthorizationCodeGrant.getAuthorizationUri`
(src/authorization_code_grant.ts, lines 91–106), as the ordered query
parameters it sets: `response_type`, `client_id`, optional `redirect_uri`,
scope resolved as `options.scope ?? config.defaults?.scope` (call-level
wins) and joined with spaces, optional truthy `state`. -/
def getAuthorizationUriParams (config : ClientConfig) (options : GetUriOptions) :
    List (String × String) :=
  [("response_type", "code"), ("client_id", config.clientId)]
    ++ (match config.redirectUri with
        | some r => [("redirect_uri", r)]
        | none => [])
    ++ (let scope := (options.scope).orElse (fun _ => config.defaults.bind (·.scope))
        match scope with
        | some sv => if scopeTruthy (some sv) then [("scope", scopeJoin sv)] else []
        | none => [])
    ++ (match options.state with
        | some st => if st ≠ "" then [("state", st)] else []
        | none => [])

end AuthorizationCodeGrant

end ACGrant

section LegacyCodeFlow

namespace CodeFlow

/-- `CodeFlow.getAuthorizationUri` (src/code_flow.ts, lines 36–51), as the
ordered query parameters it sets.  Unlike `AuthorizationCodeGrant`, the
scope is resolved as `config.defaults?.scope || options.scope`: a truthy
configured default takes precedence over the call-supplied scope. -/
def getAuthorizationUriParams (config : ClientConfig) (options : GetUriOptions) :
    List (String × String) :=
  [("response_type", "code"), ("client_id", config.clientId)]
    ++ (match config.redirectUri with
        | some r => [("redirect_uri", r)]
        | none => [])
    ++ (let defScope := config.defaults.bind (·.scope)
        let scope := if scopeTruthy defScope then defScope else options.scope
        match scope with
        | some sv => if scopeTruthy (some sv) then [("scope", scopeJoin sv)] else []
        | none => [])
    ++ (match options.state with
        | some st => if st ≠ "" then [("state", st)] else []
        | none => [])

end CodeFlow

end LegacyCodeFlow

section ROPCGrant

namespace ResourceOwnerPasswordCredentialsGrant

/-- The inputs of `ResourceOwnerPasswordCredentialsGrant.getToken`. -/
structure TokenOptions where
  username : String
  password : String
  scope : Option ScopeValue := none

/-- `ResourceOwnerPasswordCredentialsGrant.buildTokenRequest` (lines 45–81):
the headers and body it assembles before handing them to the shared
`buildRequest` of the grant base (`grant_type=password`, the credentials,
the space-joined scope, and Basic auth / body `client_id` depending on
whether a client secret is configured). -/
def buildTokenRequest (config : ClientConfig) (options : TokenOptions) :
    List (String × String) × List (String × String) :=
  let scope := (options.scope).orElse (fun _ => config.defaults.bind (·.scope))
  let body :=
    [("grant_type", "password"), ("username", options.username), ("password", options.password)]
      ++ (match scope with
          | some sv => if scopeTruthy (some sv) then [("scope", scopeJoin sv)] else []
          | none => [])
      ++ (match config.clientSecret with
          | some _ => []
          | none => [("client_id", config.clientId)])
  let headers :=
    [("Accept", "application/json")]
      ++ (match config.clientSecret with
          | some sec => [("Authorization", "Basic " ++ btoa (config.clientId ++ ":" ++ sec))]
          | none => [])
  (headers, body)

end ResourceOwnerPasswordCredentialsGrant

end ROPCGrant

section OIDCFlow

namespace AuthorizationCodeFlow

/-- `requireIDTokenClaim` (oidc/authorization_code_flow.ts): the claim must
be present and satisfy the validator. -/
def requireIDTokenClaim (payload : List (String × JValue)) (key : String)
    (isValid : JValue → Bool) : Except OAuthFailure Unit :=
  match jGet payload key with
  | none => .error (.tokenResponse ("id_token is missing the " ++ key ++ " claim"))
  | some v =>
    if !isValid v then
      .error (.tokenResponse ("id_token contains an invalid " ++ key ++ " claim"))
    else .ok ()

/-- `requireOptionalIDTokenClaim`: an absent claim is fine; a present claim
must satisfy the validator. -/
def requireOptionalIDTokenClaim (payload : List (String × JValue)) (key : String)
    (isValid : JValue → Bool) : Except OAuthFailure Unit :=
  match jGet payload key with
  | none => .ok ()
  | some v =>
    if !isValid v then
      .error (.tokenResponse ("id_token contains an invalid " ++ key ++ " claim"))
    else .ok ()

/-- The `aud` validator of `assertIsValidIDToken`: a string or string array
containing this client's id. -/
def isValidAud (clientId : String) (v : JValue) : Bool :=
  isStringOrStringArray v ∧ (valueOrArrayToArray v).any (· = clientId)

/-- `AuthorizationCodeFlow.assertIsValidIDToken`
(oidc/authorization_code_flow.ts, lines 249–297), with the current Unix
timestamp (`Math.floor(Date.now() / 1000)`) passed explicitly: requires
`iss`, `sub`, `aud` (containing the client id), numeric `exp` — and throws
"id_token is already expired" when `exp >= currentTimestamp` — then `iat`,
optional numeric `auth_time`, the nonce rule (must equal the expected nonce
when one was sent, must be absent when none was sent), optional `acr`,
`amr`, and `azp` equal to the client id. -/
def assertIsValidIDToken (clientId : String) (currentTimestamp : Int)
    (payload : List (String × JValue)) (expectedNonce : Option String) :
    Except OAuthFailure Unit := do
  requireIDTokenClaim payload "iss" isString
  requireIDTokenClaim payload "sub" isString
  requireIDTokenClaim payload "aud" (isValidAud clientId)
  requireIDTokenClaim payload "exp" isNumber
  match jGet payload "exp" with
  | some (.jNum e) =>
    if e ≥ currentTimestamp then
      .error (.tokenResponse "id_token is already expired")
    else .ok ()
  | _ => .ok ()
  requireIDTokenClaim payload "iat" isNumber
  requireOptionalIDTokenClaim payload "auth_time" isNumber
  match expectedNonce with
  | some n => requireIDTokenClaim payload "nonce" (· = .jStr n)
  | none =>
    if (jGet payload "nonce").isSome then
      .error (.tokenResponse "id_token contained a nonce, but none was expected")
    else .ok ()
  requireOptionalIDTokenClaim payload "acr" isString
  requireOptionalIDTokenClaim payload "amr" isStringArray
  requireOptionalIDTokenClaim payload "azp" (· = .jStr clientId)

/-- `AuthorizationCodeFlow.validateAccessToken`
(oidc/authorization_code_flow.ts, lines 214–244), with `crypto.subtle.digest`
passed as a function from hash-algorithm name and message bytes to digest
bytes: map the JOSE algorithm to a hash algorithm (failing closed on
anything but RS256/RS384/RS512), hash the access token's bytes, take the
left half, encode it with the std base64 encoder, and require equality with
the `at_hash` claim. -/
def validateAccessToken (digest : String → List Nat → List Nat)
    (accessToken : String) (joseAlg : String) (atHash : String) :
    Except OAuthFailure Unit :=
  let hashAlg : Option String :=
    if joseAlg = "RS256" then some "SHA-256"
    else if joseAlg = "RS384" then some "SHA-384"
    else if joseAlg = "RS512" then some "SHA-512"
    else none
  match hashAlg with
  | none =>
    .error (.tokenResponse ("id_token uses unsupported algorithm for signing: " ++ joseAlg))
  | some alg =>
    let hash := digest alg (strBytes accessToken)
    let leftHalf := hash.take (hash.length / 2)
    if base64Encode leftHalf ≠ atHash then
      .error (.tokenResponse "id_token at_hash claim does not match access_token hash")
    else .ok ()

end AuthorizationCodeFlow

end OIDCFlow

section EncodingLengths

/-- `(String.mk l).length = l.length` (definitional; named for use by simp). -/
theorem string_length_mk (l : List Char) : (String.mk l).length = l.length := rfl

/-- The length of the `==` padding literal. -/
theorem length_pad_two : ("==" : String).length = 2 := rfl

/-- The length of the `=` padding literal. -/
theorem length_pad_one : ("=" : String).length = 1 := rfl

/-- Length of the padded standard base64 encoding: four characters per
three-byte group, one full padded group for any trailing bytes. -/
theorem b64core_length (t : String) : ∀ bs : List Nat,
    (b64core t bs).length = 4 * (bs.length / 3) + (if bs.length % 3 = 0 then 0 else 4)
  | [] => by simp [b64core]
  | [b1] => by
    simp [b64core, String.length_append, string_length_mk, length_pad_two]
  | [b1, b2] => by
    simp [b64core, String.length_append, string_length_mk, length_pad_one]
  | b1 :: b2 :: b3 :: rest => by
    have ih := b64core_length t rest
    rw [b64core, String.length_append, string_length_mk, ih]
    have h1 : rest.length + 1 + 1 + 1 = rest.length + 3 := rfl
    simp only [List.length_cons, List.length_nil, h1, Nat.add_mod_right,
      Nat.add_div_right _ (by norm_num : 0 < 3)]
    ring_nf

/-- Length of the unpadded base64url encoding: four characters per
three-byte group, two or three characters for one or two trailing bytes. -/
theorem b64urlCore_length : ∀ bs : List Nat,
    (b64urlCore bs).length
      = 4 * (bs.length / 3) + (if bs.length % 3 = 0 then 0 else if bs.length % 3 = 1 then 2 else 3)
  | [] => by simp [b64urlCore]
  | [b1] => by
    simp [b64urlCore, string_length_mk]
  | [b1, b2] => by
    simp [b64urlCore, string_length_mk]
  | b1 :: b2 :: b3 :: rest => by
    have ih := b64urlCore_length rest
    rw [b64urlCore, String.length_append, string_length_mk, ih]
    have h1 : rest.length + 1 + 1 + 1 = rest.length + 3 := rfl
    simp only [List.length_cons, List.length_nil, h1, Nat.add_mod_right,
      Nat.add_div_right _ (by norm_num : 0 < 3)]
    ring_nf

end EncodingLengths

section ClaimC1

/-- C1: the spec claims an OIDC ID token whose `exp` lies strictly in the
future (all other required claims valid) passes claim validation, while an
`exp` at or before the current time fails with an expiry error.  The code
has the comparison inverted: `assertIsValidIDToken` throws
"id_token is already expired" exactly when `exp >= currentTimestamp`.  At
current time 1700000000, a payload with `exp` one hour in the future is
rejected with the expiry error, and the same payload with `exp` one second
in the past passes all claim checks. -/
theorem oidcExpiryCheckInverted :
    (AuthorizationCodeFlow.assertIsValidIDToken "clientId" 1700000000
        [("iss", .jStr "https://auth.server"), ("sub", .jStr "user-1"),
         ("aud", .jStr "clientId"), ("exp", .jNum 1700003600), ("iat", .jNum 1700000000)]
        none
      = .error (.tokenResponse "id_token is already expired"))
    ∧ (AuthorizationCodeFlow.assertIsValidIDToken "clientId" 1700000000
        [("iss", .jStr "https://auth.server"), ("sub", .jStr "user-1"),
         ("aud", .jStr "clientId"), ("exp", .jNum 1699999999), ("iat", .jNum 1700000000)]
        none
      = .ok ()) := by
  constructor <;> rfl

end ClaimC1

section ClaimC2

/-- C2: the spec claims the `at_hash` check succeeds exactly when `at_hash`
equals the base64url encoding, without padding, of the left half of the
matching SHA digest of the access token's bytes.  The code instead compares
against the padded standard base64 encoding (`encoding/base64.ts`), so for
RS256 — where the left half is 16 bytes and the two encodings always differ
in length (24 padded characters vs 22) — every spec-compliant `at_hash`
value is rejected, whatever the digest outcome: `validateAccessToken`
fails with the at_hash-mismatch error on the OIDC-mandated encoding of the
correct left half. -/
theorem oidcAtHashCompliantValueRejected
    (digest : String → List Nat → List Nat) (accessToken : String)
    (h : (digest "SHA-256" (strBytes accessToken)).length = 32) :
    AuthorizationCodeFlow.validateAccessToken digest accessToken "RS256"
      (specBase64UrlNoPad ((digest "SHA-256" (strBytes accessToken)).take 16))
    = .error (.tokenResponse "id_token at_hash claim does not match access_token hash") := by
  have hl : ((digest "SHA-256" (strBytes accessToken)).take 16).length = 16 := by
    rw [List.length_take, h]
    norm_num
  have hne : base64Encode ((digest "SHA-256" (strBytes accessToken)).take 16)
      ≠ specBase64UrlNoPad ((digest "SHA-256" (strBytes accessToken)).take 16) := by
    intro heq
    have h24 : (base64Encode ((digest "SHA-256" (strBytes accessToken)).take 16)).length = 24 := by
      rw [base64Encode, b64core_length, hl]
      norm_num
    have h22 : (specBase64UrlNoPad ((digest "SHA-256" (strBytes accessToken)).take 16)).length = 22 := by
      rw [specBase64UrlNoPad, b64urlCore_length, hl]
      norm_num
    rw [heq, h22] at h24
    exact absurd h24 (by norm_num)
  unfold AuthorizationCodeFlow.validateAccessToken
  simp only [reduceIte, h]
  norm_num
  exact fun heq => absurd heq hne

/-- Witness for `oidcAtHashCompliantValueRejected`: a concrete digest
capability returning a 32-byte digest, and the access token "AT". -/
theorem oidcAtHashCompliantValueRejected_witness :
    (((fun (_ : String) (_ : List Nat) => List.range 32) "SHA-256" (strBytes "AT")).length = 32)
    ∧ AuthorizationCodeFlow.validateAccessToken
        (fun (_ : String) (_ : List Nat) => List.range 32) "AT" "RS256"
        (specBase64UrlNoPad (((fun (_ : String) (_ : List Nat) => List.range 32) "SHA-256" (strBytes "AT")).take 16))
      = .error (.tokenResponse "id_token at_hash claim does not match access_token hash") :=
  ⟨by decide, oidcAtHashCompliantValueRejected (fun _ _ => List.range 32) "AT" (by decide)⟩

end ClaimC2

section RedirectHelper

/-- When no redirect URI is configured, or the response URI's pathname
equals the configured redirect URI's pathname, the redirect-path check
passes and validation proceeds to the parameter checks. -/
theorem validateAuthorizationResponse_eq_params (config : ClientConfig)
    (url : UrlParts) (opts : GetTokenOptions)
    (h : config.redirectUri = none
      ∨ ∃ r, config.redirectUri = some r ∧ url.pathname = (parseAbsoluteUrl r).pathname) :
    AuthorizationCodeGrant.validateAuthorizationResponse config url opts
      = AuthorizationCodeGrant.validateResponseParams config url opts := by
  rcases h with h | ⟨r, hr, hp⟩
  · simp [AuthorizationCodeGrant.validateAuthorizationResponse, h]
  · simp [AuthorizationCodeGrant.validateAuthorizationResponse, hr, hp]

end RedirectHelper

section ClaimC3

/-- C3: on a redirect response that passes the path and parameter checks
and carries an authorization code, state validation with an expected state
`expected` fails on a differing received state `got` with the message
"Invalid state: got" naming the received value; when no state parameter
was received at all while an expected state (or a call-supplied validator
rejecting a missing state) is registered, it fails with the distinct
message "Missing state". -/
theorem acgStateValidationDistinguishes :
    (∀ (config : ClientConfig) (url : UrlParts) (ro : Option ReqOptions)
        (expected got code : String),
      (config.redirectUri = none
          ∨ ∃ r, config.redirectUri = some r ∧ url.pathname = (parseAbsoluteUrl r).pathname) →
      url.search ≠ "" → url.search.data.tail ≠ [] →
      paramsHas (parseSearchParams url.search) "error" = false →
      paramsGet (parseSearchParams url.search) "code" = some code → code ≠ "" →
      paramsGet (parseSearchParams url.search) "state" = some got →
      expected ≠ "" → got ≠ expected →
      AuthorizationCodeGrant.validateAuthorizationResponse config url
          { state := some expected, stateValidator := none, requestOptions := ro }
        = .error (.authResponse ("Invalid state: " ++ got)))
    ∧ (∀ (config : ClientConfig) (url : UrlParts) (ro : Option ReqOptions)
        (expected code : String),
      (config.redirectUri = none
          ∨ ∃ r, config.redirectUri = some r ∧ url.pathname = (parseAbsoluteUrl r).pathname) →
      url.search ≠ "" → url.search.data.tail ≠ [] →
      paramsHas (parseSearchParams url.search) "error" = false →
      paramsGet (parseSearchParams url.search) "code" = some code → code ≠ "" →
      paramsGet (parseSearchParams url.search) "state" = none →
      expected ≠ "" →
      AuthorizationCodeGrant.validateAuthorizationResponse config url
          { state := some expected, stateValidator := none, requestOptions := ro }
        = .error (.authResponse "Missing state"))
    ∧ (∀ (config : ClientConfig) (url : UrlParts) (ro : Option ReqOptions)
        (v : Option String → Bool) (code : String),
      (config.redirectUri = none
          ∨ ∃ r, config.redirectUri = some r ∧ url.pathname = (parseAbsoluteUrl r).pathname) →
      url.search ≠ "" → url.search.data.tail ≠ [] →
      paramsHas (parseSearchParams url.search) "error" = false →
      paramsGet (parseSearchParams url.search) "code" = some code → code ≠ "" →
      paramsGet (parseSearchParams url.search) "state" = none →
      v none = false →
      AuthorizationCodeGrant.validateAuthorizationResponse config url
          { state := none, stateValidator := some v, requestOptions := ro }
        = .error (.authResponse "Missing state")) := by
  refine ⟨?_, ?_, ?_⟩
  · intro config url ro expected got code hred hs1 hs2 herr hcode hcne hstate hexp hne
    rw [validateAuthorizationResponse_eq_params config url _ hred]
    simp [AuthorizationCodeGrant.validateResponseParams, hs1, hs2, herr, hcode, hcne,
      hstate, AuthorizationCodeGrant.resolveStateValidator, hexp, hne]
  · intro config url ro expected code hred hs1 hs2 herr hcode hcne hstate hexp
    rw [validateAuthorizationResponse_eq_params config url _ hred]
    simp [AuthorizationCodeGrant.validateResponseParams, hs1, hs2, herr, hcode, hcne,
      hstate, AuthorizationCodeGrant.resolveStateValidator, hexp]
  · intro config url ro v code hred hs1 hs2 herr hcode hcne hstate hv
    rw [validateAuthorizationResponse_eq_params config url _ hred]
    simp [AuthorizationCodeGrant.validateResponseParams, hs1, hs2, herr, hcode, hcne,
      hstate, AuthorizationCodeGrant.resolveStateValidator, hv]

/-- Witness for `acgStateValidationDistinguishes`: a client expecting state
"s1" rejects a redirect carrying `state=s2` with "Invalid state: s2" and a
redirect carrying no state with "Missing state". -/
theorem acgStateValidationDistinguishes_witness :
    (paramsGet (parseSearchParams "?code=abc&state=s2") "state" = some "s2")
    ∧ (AuthorizationCodeGrant.validateAuthorizationResponse
        { clientId := "cid", authorizationEndpointUri := "https://auth.server/auth",
          tokenUri := "https://auth.server/token" }
        { scheme := "https", host := "example.app", pathname := "/callback",
          search := "?code=abc&state=s2" }
        { state := some "s1", stateValidator := none, requestOptions := none }
        = .error (.authResponse "Invalid state: s2"))
    ∧ (AuthorizationCodeGrant.validateAuthorizationResponse
        { clientId := "cid", authorizationEndpointUri := "https://auth.server/auth",
          tokenUri := "https://auth.server/token" }
        { scheme := "https", host := "example.app", pathname := "/callback",
          search := "?code=abc" }
        { state := some "s1", stateValidator := none, requestOptions := none }
        = .error (.authResponse "Missing state")) :=
  ⟨by decide,
    acgStateValidationDistinguishes.1
      { clientId := "cid", authorizationEndpointUri := "https://auth.server/auth",
        tokenUri := "https://auth.server/token" }
      { scheme := "https", host := "example.app", pathname := "/callback",
        search := "?code=abc&state=s2" }
      none "s1" "s2" "abc" (Or.inl rfl) (by decide) (by decide) (by decide) (by decide)
      (by decide) (by decide) (by decide) (by decide),
    acgStateValidationDistinguishes.2.1
      { clientId := "cid", authorizationEndpointUri := "https://auth.server/auth",
        tokenUri := "https://auth.server/token" }
      { scheme := "https", host := "example.app", pathname := "/callback",
        search := "?code=abc" }
      none "s1" "abc" (Or.inl rfl) (by decide) (by decide) (by decide) (by decide)
      (by decide) (by decide) (by decide)⟩

end ClaimC3

section ClaimC4

/-- C4: on any authorization redirect whose query carries an `error`
parameter (the path matching any configured redirect URI, at least one
query parameter present), validation fails with the protocol error built
by `AuthError.fromURLSearchParams` from the `error`, `error_description`,
`error_uri` and `state` parameters — regardless of the remaining options
and of whether a `code` or any other parameter is also present. -/
theorem acgErrorParamShortCircuits
    (config : ClientConfig) (url : UrlParts) (opts : GetTokenOptions) (e : String)
    (hred : config.redirectUri = none
      ∨ ∃ r, config.redirectUri = some r ∧ url.pathname = (parseAbsoluteUrl r).pathname)
    (hs1 : url.search ≠ "") (hs2 : url.search.data.tail ≠ [])
    (herr : paramsGet (parseSearchParams url.search) "error" = some e) :
    AuthorizationCodeGrant.validateAuthorizationResponse config url opts
      = .error (.oauthResponse
          { error := e
            errorDescription := (paramsGet (parseSearchParams url.search) "error_description").map .jStr
            errorUri := (paramsGet (parseSearchParams url.search) "error_uri").map .jStr
            state := (paramsGet (parseSearchParams url.search) "state").map .jStr }) := by
  rw [validateAuthorizationResponse_eq_params config url _ hred]
  simp [AuthorizationCodeGrant.validateResponseParams, hs1, hs2, paramsHas, herr,
    AuthError.fromURLSearchParams]

/-- Witness for `acgErrorParamShortCircuits`: a redirect carrying both an
`error` and a `code` parameter fails with the protocol error (the `code` is
ignored). -/
theorem acgErrorParamShortCircuits_witness :
    (paramsGet (parseSearchParams "?code=abc&error=access_denied&error_description=denied&state=xyz") "error"
        = some "access_denied")
    ∧ (AuthorizationCodeGrant.validateAuthorizationResponse
        { clientId := "cid", authorizationEndpointUri := "https://auth.server/auth",
          tokenUri := "https://auth.server/token" }
        { scheme := "https", host := "example.app", pathname := "/callback",
          search := "?code=abc&error=access_denied&error_description=denied&state=xyz" }
        {}
        = .error (.oauthResponse
            { error := "access_denied"
              errorDescription := some (.jStr "denied")
              errorUri := none
              state := some (.jStr "xyz") })) :=
  ⟨by decide,
    by
      have h := acgErrorParamShortCircuits
        { clientId := "cid", authorizationEndpointUri := "https://auth.server/auth",
          tokenUri := "https://auth.server/token" }
        { scheme := "https", host := "example.app", pathname := "/callback",
          search := "?code=abc&error=access_denied&error_description=denied&state=xyz" }
        {} "access_denied" (Or.inl rfl) (by decide) (by decide) (by decide)
      rw [h]
      rfl⟩

end ClaimC4

section ClaimC5

/-- C5: every non-2xx token-endpoint response fails through the two-tier
error path, each tier forced: whenever the body parsed as a JSON object
whose `error` field is a string, the result IS the protocol error carrying
that value and the `error_description` / `error_uri` / `state` fields as
present in the body; in every other case (unparseable body, non-object
body, missing or non-string `error`) the result IS the response-shape
error naming the HTTP status and saying no error description was given.
Totality of the embedded parser is the absence of any unhandled parse
exception. -/
theorem tokenErrorTwoTier (r : AuthorizationCodeGrant.TokenResponse)
    (h : AuthorizationCodeGrant.responseOk r = false) :
    (∀ fields e, r.body = some (.jobj fields) → jGet fields "error" = some (.jStr e) →
      AuthorizationCodeGrant.parseTokenResponse r
        = .error (.oauthResponse
            { error := e
              errorDescription := jGet fields "error_description"
              errorUri := jGet fields "error_uri"
              state := jGet fields "state" }))
    ∧ ((¬ ∃ fields e, r.body = some (.jobj fields) ∧ jGet fields "error" = some (.jStr e)) →
      AuthorizationCodeGrant.parseTokenResponse r
        = .error (.tokenResponse
            ("Server returned " ++ toString r.status ++ " and no error description was given"))) := by
  have hp : AuthorizationCodeGrant.parseTokenResponse r
      = .error (AuthorizationCodeGrant.getTokenResponseError r) := by
    simp [AuthorizationCodeGrant.parseTokenResponse, h]
  constructor
  · intro fields e hb he
    rw [hp]
    simp [AuthorizationCodeGrant.getTokenResponseError, hb, he]
  · intro hne
    rw [hp]
    rcases hb : r.body with _ | b
    · simp [AuthorizationCodeGrant.getTokenResponseError, hb]
    · cases b with
      | jobj fields =>
        rcases he : jGet fields "error" with _ | v
        · simp [AuthorizationCodeGrant.getTokenResponseError, hb, he]
        · cases v with
          | jStr e => exact absurd ⟨fields, e, hb, he⟩ hne
          | jNum n => simp [AuthorizationCodeGrant.getTokenResponseError, hb, he]
          | jBool x => simp [AuthorizationCodeGrant.getTokenResponseError, hb, he]
          | jNull => simp [AuthorizationCodeGrant.getTokenResponseError, hb, he]
          | jStrArr xs => simp [AuthorizationCodeGrant.getTokenResponseError, hb, he]
      | jarr => simp [AuthorizationCodeGrant.getTokenResponseError, hb]
      | jnull => simp [AuthorizationCodeGrant.getTokenResponseError, hb]
      | jprim => simp [AuthorizationCodeGrant.getTokenResponseError, hb]

/-- Witness for `tokenErrorTwoTier`: a 400 response whose body carries a
string `error` field is forced onto the protocol-error tier, and a 500
response with an unparseable body onto the response-shape tier. -/
theorem tokenErrorTwoTier_witness :
    (AuthorizationCodeGrant.responseOk
        { status := 400, body := some (.jobj [("error", .jStr "invalid_grant")]) } = false)
    ∧ (AuthorizationCodeGrant.parseTokenResponse
        { status := 400, body := some (.jobj [("error", .jStr "invalid_grant")]) }
      = .error (.oauthResponse
          { error := "invalid_grant", errorDescription := none, errorUri := none, state := none }))
    ∧ (AuthorizationCodeGrant.parseTokenResponse { status := 500, body := none }
      = .error (.tokenResponse
          ("Server returned " ++ toString (500 : Nat) ++ " and no error description was given"))) :=
  ⟨by decide,
    (tokenErrorTwoTier
      { status := 400, body := some (.jobj [("error", .jStr "invalid_grant")]) }
      (by decide)).1
      [("error", .jStr "invalid_grant")] "invalid_grant" rfl rfl,
    (tokenErrorTwoTier { status := 500, body := none } (by decide)).2
      (by simp)⟩

end ClaimC5

section ClaimC6

/-- C6: a 2xx token response with body
`{"access_token":"AT","token_type":"Bearer","expires_in":3600}` parses to
exactly `{accessToken := "AT", tokenType := "Bearer", expiresIn := 3600}`
with no scope and no refresh token; and in general, for any successfully
parsed object body, the result's scope is present exactly when the body's
`scope` field is a present, non-empty string, in which case it is that
string split on single spaces. -/
theorem parseTokensScenarioAndScope :
    (AuthorizationCodeGrant.parseTokenResponse
        { status := 200,
          body := some (.jobj [("access_token", .jStr "AT"), ("token_type", .jStr "Bearer"),
            ("expires_in", .jNum 3600)]) }
      = .ok { accessToken := "AT", tokenType := "Bearer", expiresIn := some 3600,
              refreshToken := none, scope := none })
    ∧ (∀ (r : AuthorizationCodeGrant.TokenResponse) (fields : List (String × JValue))
        (t : AuthorizationCodeGrant.Tokens),
        r.body = some (.jobj fields) →
        AuthorizationCodeGrant.parseTokenResponse r = .ok t →
        t.scope = (match jGet fields "scope" with
          | some (.jStr s) => if s = "" then none else some (s.splitOn " ")
          | _ => none)) := by
  constructor
  · rfl
  · intro r fields t hb h
    unfold AuthorizationCodeGrant.parseTokenResponse at h
    rw [hb] at h
    repeat' split at h
    all_goals try simp_all
    all_goals subst h
    all_goals rfl

end ClaimC6

section ClaimC6Witness

/-- Witness for `parseTokensScenarioAndScope`: the general scope rule
applied to the concrete scenario response, whose parsed record carries no
scope. -/
theorem parseTokensScenarioAndScope_witness :
    ((some (JBody.jobj [("access_token", JValue.jStr "AT"), ("token_type", JValue.jStr "Bearer"),
        ("expires_in", JValue.jNum 3600)]) : Option JBody)
      = some (.jobj [("access_token", .jStr "AT"), ("token_type", .jStr "Bearer"),
        ("expires_in", .jNum 3600)]))
    ∧ (({ accessToken := "AT", tokenType := "Bearer", expiresIn := some 3600,
          refreshToken := none, scope := none } : AuthorizationCodeGrant.Tokens).scope = none) :=
  ⟨rfl,
    parseTokensScenarioAndScope.2
      { status := 200,
        body := some (.jobj [("access_token", .jStr "AT"), ("token_type", .jStr "Bearer"),
          ("expires_in", .jNum 3600)]) }
      [("access_token", .jStr "AT"), ("token_type", .jStr "Bearer"), ("expires_in", .jNum 3600)]
      { accessToken := "AT", tokenType := "Bearer", expiresIn := some 3600,
        refreshToken := none, scope := none }
      rfl
      parseTokensScenarioAndScope.1⟩

end ClaimC6Witness

section ParamsAppend

/-- Lookup through `++`: the left list is consulted first. -/
theorem paramsGet_append (xs ys : List (String × String)) (k : String) :
    paramsGet (xs ++ ys) k = (paramsGet xs k).orElse (fun _ => paramsGet ys k) := by
  simp only [paramsGet, List.find?_append]
  cases xs.find? (fun p => p.1 = k) <;> simp [Option.orElse]

end ParamsAppend

section ClaimC7

/-- C7: in every token request assembled by `buildAccessTokenRequest` (and
in the headers/body assembled by the resource-owner-password-credentials
grant), a configured client secret puts `Authorization: Basic
base64(clientId:clientSecret)` in the headers and keeps `client_id` out of
the form body, while an absent secret puts `client_id` into the body and
adds no Authorization header — provided the default / call-level request
options do not themselves carry an `Authorization` header or `client_id`
body field. -/
theorem clientCredentialsPlacement :
    (∀ (config : ClientConfig) (code : String) (ro : Option ReqOptions),
      paramsGet ((config.defaults.bind (·.requestOptions)).getD {}).headers "Authorization" = none →
      paramsGet (ro.getD {}).headers "Authorization" = none →
      paramsGet ((config.defaults.bind (·.requestOptions)).getD {}).body "client_id" = none →
      paramsGet (ro.getD {}).body "client_id" = none →
      (∀ sec, config.clientSecret = some sec →
        paramsGet (AuthorizationCodeGrant.buildAccessTokenRequest config code ro).headers "Authorization"
            = some ("Basic " ++ btoa (config.clientId ++ ":" ++ sec))
          ∧ paramsGet (AuthorizationCodeGrant.buildAccessTokenRequest config code ro).body "client_id" = none)
      ∧ (config.clientSecret = none →
        paramsGet (AuthorizationCodeGrant.buildAccessTokenRequest config code ro).body "client_id"
            = some config.clientId
          ∧ paramsGet (AuthorizationCodeGrant.buildAccessTokenRequest config code ro).headers "Authorization" = none))
    ∧ (∀ (config : ClientConfig) (options : ResourceOwnerPasswordCredentialsGrant.TokenOptions),
      (∀ sec, config.clientSecret = some sec →
        paramsGet (ResourceOwnerPasswordCredentialsGrant.buildTokenRequest config options).1 "Authorization"
            = some ("Basic " ++ btoa (config.clientId ++ ":" ++ sec))
          ∧ paramsGet (ResourceOwnerPasswordCredentialsGrant.buildTokenRequest config options).2 "client_id" = none)
      ∧ (config.clientSecret = none →
        paramsGet (ResourceOwnerPasswordCredentialsGrant.buildTokenRequest config options).2 "client_id"
            = some config.clientId
          ∧ paramsGet (ResourceOwnerPasswordCredentialsGrant.buildTokenRequest config options).1 "Authorization" = none)) := by
  constructor
  · intro config code ro h1 h2 h3 h4
    constructor
    · intro sec hsec
      constructor
      · simp only [AuthorizationCodeGrant.buildAccessTokenRequest, hsec, paramsGet_spreadMerge]
        rw [h2, h1]
        rfl
      · cases hred : config.redirectUri
        · simp only [AuthorizationCodeGrant.buildAccessTokenRequest, hsec, hred,
            paramsGet_spreadMerge]
          rw [h4, h3]
          rfl
        · simp only [AuthorizationCodeGrant.buildAccessTokenRequest, hsec, hred,
            paramsGet_spreadMerge]
          rw [h4, h3]
          rfl
    · intro hsec
      constructor
      · cases hred : config.redirectUri
        · simp only [AuthorizationCodeGrant.buildAccessTokenRequest, hsec, hred,
            paramsGet_spreadMerge]
          rw [h4, h3]
          rfl
        · simp only [AuthorizationCodeGrant.buildAccessTokenRequest, hsec, hred,
            paramsGet_spreadMerge]
          rw [h4, h3]
          rfl
      · simp only [AuthorizationCodeGrant.buildAccessTokenRequest, hsec, paramsGet_spreadMerge]
        rw [h2, h1]
        rfl
  · intro config options
    have hscopeKeys : ∀ (sc : Option ScopeValue),
        paramsGet (match sc with
          | some sv => if scopeTruthy (some sv) = true then [("scope", scopeJoin sv)] else []
          | none => ([] : List (String × String))) "client_id" = none := by
      intro sc
      rcases sc with _ | sv
      · rfl
      · by_cases hb : scopeTruthy (some sv) = true <;> simp [hb, paramsGet]
    constructor
    · intro sec hsec
      constructor
      · simp only [ResourceOwnerPasswordCredentialsGrant.buildTokenRequest, hsec]
        rfl
      · simp only [ResourceOwnerPasswordCredentialsGrant.buildTokenRequest, hsec,
          paramsGet_append, hscopeKeys]
        rfl
    · intro hsec
      constructor
      · simp only [ResourceOwnerPasswordCredentialsGrant.buildTokenRequest, hsec,
          paramsGet_append, hscopeKeys]
        rfl
      · simp only [ResourceOwnerPasswordCredentialsGrant.buildTokenRequest, hsec]
        rfl

/-- Witness for `clientCredentialsPlacement`: a confidential client with
id "cid" and secret "sec" and no request options gets the Basic header
`Y2lkOnNlYw==` and no `client_id` body field. -/
theorem clientCredentialsPlacement_witness :
    (btoa ("cid" ++ ":" ++ "sec") = "Y2lkOnNlYw==")
    ∧ (paramsGet
        (AuthorizationCodeGrant.buildAccessTokenRequest
          { clientId := "cid", clientSecret := some "sec",
            authorizationEndpointUri := "https://auth.server/auth",
            tokenUri := "https://auth.server/token" }
          "abc" none).headers "Authorization"
        = some ("Basic " ++ btoa ("cid" ++ ":" ++ "sec"))
      ∧ paramsGet
          (AuthorizationCodeGrant.buildAccessTokenRequest
            { clientId := "cid", clientSecret := some "sec",
              authorizationEndpointUri := "https://auth.server/auth",
              tokenUri := "https://auth.server/token" }
            "abc" none).body "client_id" = none) :=
  ⟨by decide,
    (clientCredentialsPlacement.1
      { clientId := "cid", clientSecret := some "sec",
        authorizationEndpointUri := "https://auth.server/auth",
        tokenUri := "https://auth.server/token" }
      "abc" none (by decide) (by decide) (by decide) (by decide)).1 "sec" rfl⟩

end ClaimC7

section ClaimC8

/-- C8 counterexample: in the legacy `CodeFlow.getAuthorizationUri`, a
call-supplied scope is NOT used in place of the configured default scope:
with default scope "default" and call-supplied scope "override", the built
`scope` query parameter is not "override" (it is "default"). -/
theorem codeFlowScopeOverride_cex :
    ¬ (paramsGet
        (CodeFlow.getAuthorizationUriParams
          { clientId := "cid", authorizationEndpointUri := "https://auth.server/auth",
            tokenUri := "https://auth.server/token",
            defaults := some { scope := some (.one "default") } }
          { scope := some (.one "override") }) "scope"
      = some "override") := by
  decide

/-- C8 (amended): in `AuthorizationCodeGrant.getAuthorizationUri` the built
URI's `scope` parameter equals the space-joined scope value, a call-supplied
scope always taking the place of the configured default; in the legacy
`CodeFlow.getAuthorizationUri` the precedence is reversed: a truthy
configured default scope is used even when a call-supplied scope is
present, the call-supplied scope being used only when no truthy default is
configured. -/
theorem scopePrecedenceAmended :
    (∀ (config : ClientConfig) (options : GetUriOptions) (sv : ScopeValue),
      options.scope = some sv → scopeTruthy (some sv) = true →
      paramsGet (AuthorizationCodeGrant.getAuthorizationUriParams config options) "scope"
        = some (scopeJoin sv))
    ∧ (∀ (config : ClientConfig) (options : GetUriOptions) (sv : ScopeValue),
      options.scope = none → config.defaults.bind (·.scope) = some sv →
      scopeTruthy (some sv) = true →
      paramsGet (AuthorizationCodeGrant.getAuthorizationUriParams config options) "scope"
        = some (scopeJoin sv))
    ∧ (∀ (config : ClientConfig) (options : GetUriOptions) (sv : ScopeValue),
      config.defaults.bind (·.scope) = some sv → scopeTruthy (some sv) = true →
      paramsGet (CodeFlow.getAuthorizationUriParams config options) "scope"
        = some (scopeJoin sv))
    ∧ (∀ (config : ClientConfig) (options : GetUriOptions) (sv : ScopeValue),
      scopeTruthy (config.defaults.bind (·.scope)) = false → options.scope = some sv →
      scopeTruthy (some sv) = true →
      paramsGet (CodeFlow.getAuthorizationUriParams config options) "scope"
        = some (scopeJoin sv)) := by
  refine ⟨?_, ?_, ?_, ?_⟩
  · intro config options sv h1 h2
    cases hred : config.redirectUri <;>
      simp [AuthorizationCodeGrant.getAuthorizationUriParams, h1, h2, hred,
        paramsGet_append, paramsGet, Option.orElse]
  · intro config options sv h1 hd h2
    cases hred : config.redirectUri <;>
      simp [AuthorizationCodeGrant.getAuthorizationUriParams, h1, hd, h2, hred,
        paramsGet_append, paramsGet, Option.orElse]
  · intro config options sv hd h2
    cases hred : config.redirectUri <;>
      simp [CodeFlow.getAuthorizationUriParams, hd, h2, hred,
        paramsGet_append, paramsGet, Option.orElse]
  · intro config options sv hf h1 h2
    cases hred : config.redirectUri <;>
      simp [CodeFlow.getAuthorizationUriParams, hf, h1, h2, hred,
        paramsGet_append, paramsGet, Option.orElse]

/-- Witness for `scopePrecedenceAmended`: with a configured default scope
and a call-supplied scope "override", `AuthorizationCodeGrant` puts
"override" into the `scope` parameter. -/
theorem scopePrecedenceAmended_witness :
    (scopeTruthy (some (.one "override")) = true)
    ∧ (paramsGet
        (AuthorizationCodeGrant.getAuthorizationUriParams
          { clientId := "cid", authorizationEndpointUri := "https://auth.server/auth",
            tokenUri := "https://auth.server/token",
            defaults := some { scope := some (.one "default") } }
          { scope := some (.one "override") }) "scope"
      = some "override") :=
  ⟨by decide,
    scopePrecedenceAmended.1
      { clientId := "cid", authorizationEndpointUri := "https://auth.server/auth",
        tokenUri := "https://auth.server/token",
        defaults := some { scope := some (.one "default") } }
      { scope := some (.one "override") }
      (.one "override") rfl (by decide)⟩

end ClaimC8

section UserInfo

namespace OIDCClient

/-- `includesClaim` (oidc/validation.ts): the claim is present and valid. -/
def includesClaim (payload : List (String × JValue)) (key : String)
    (isValid : JValue → Bool) : Bool :=
  match jGet payload key with
  | some v => isValid v
  | none => false

/-- A completed UserInfo HTTP response: status, `Content-Type` header,
the result of parsing the body as JSON (`none` = not valid JSON), and the
body as text (for the `application/jwt` branch). -/
structure UserInfoResponse where
  status : Nat
  contentType : Option String
  jsonBody : Option JBody
  textBody : Option String

/-- `Response.ok` for the UserInfo call. -/
def uiOk (status : Nat) : Bool :=
  200 ≤ status ∧ status ≤ 299

/-- `OIDCClient.getUserInfoResponsePayload` (oidc/oidc_client.ts): parse the
response by content type — `application/json` requires a JSON object body,
`application/jwt` passes the text through the injected `verifyJwt`
capability, anything else fails. -/
def getUserInfoResponsePayload (verifyJwt : String → Option (List (String × JValue)))
    (r : UserInfoResponse) : Except OAuthFailure (List (String × JValue)) :=
  let invalidCT : String :=
    "the userinfo response had an invalid content-type. Expected application/json or application/jwt, but got "
      ++ (r.contentType.getD "null")
  match r.contentType with
  | some ct =>
    if ct = "application/json" then
      match r.jsonBody with
      | none => .error (.userInfo "the userinfo response body was not valid JSON")
      | some (.jobj fields) => .ok fields
      | some _ => .error (.userInfo "the userinfo response body was not a JSON object")
    else if ct = "application/jwt" then
      match r.textBody with
      | none => .error (.userInfo "failed to read application/jwt response")
      | some txt =>
        match verifyJwt txt with
        | some payload => .ok payload
        | none => .error (.userInfo "failed to validate the userinfo JWT response")
    else .error (.userInfo invalidCT)
  | none => .error (.userInfo invalidCT)

/-- `OIDCClient.getUserInfo` (oidc/oidc_client.ts, lines 38–76): requires a
configured UserInfo endpoint, a 2xx response, a parseable payload, and a
`sub` claim strictly equal to the validated ID token's subject; otherwise
it fails with a `UserInfoError`. -/
def getUserInfo (userInfoEndpoint : Option String)
    (verifyJwt : String → Option (List (String × JValue)))
    (idTokenSub : String) (r : UserInfoResponse) :
    Except OAuthFailure (List (String × JValue)) :=
  match userInfoEndpoint with
  | none => .error (.userInfo "calling getUserInfo() requires a userInfoEndpoint to be configured")
  | some _ =>
    if !uiOk r.status then .error (.userInfo "userinfo returned an error")
    else
      match getUserInfoResponsePayload verifyJwt r with
      | .error e => .error e
      | .ok payload =>
        if includesClaim payload "sub" (· = .jStr idTokenSub) then .ok payload
        else .error (.userInfo "the userInfo response body contained an invalid `sub` claim")

end OIDCClient

end UserInfo

section ClaimC9

/-- C9: every successful `getUserInfo` result carries a `sub` claim equal
to the validated ID token's subject; and whenever the parsed payload's
`sub` claim is absent or differs from that subject, the call fails with
the UserInfo `sub` error even though the response status is 2xx. -/
theorem userInfoSubBinding (E : Option String)
    (verifyJwt : String → Option (List (String × JValue)))
    (sub : String) (r : OIDCClient.UserInfoResponse) :
    (∀ payload, OIDCClient.getUserInfo E verifyJwt sub r = .ok payload →
      jGet payload "sub" = some (.jStr sub))
    ∧ (∀ e payload, E = some e → OIDCClient.uiOk r.status = true →
      OIDCClient.getUserInfoResponsePayload verifyJwt r = .ok payload →
      jGet payload "sub" ≠ some (.jStr sub) →
      OIDCClient.getUserInfo E verifyJwt sub r
        = .error (.userInfo "the userInfo response body contained an invalid `sub` claim")) := by
  constructor
  · intro payload h
    rcases E with _ | e
    · simp [OIDCClient.getUserInfo] at h
    · unfold OIDCClient.getUserInfo at h
      by_cases hok : OIDCClient.uiOk r.status = true
      · simp only [hok, Bool.not_true, Bool.false_eq_true, if_false] at h
        cases hp : OIDCClient.getUserInfoResponsePayload verifyJwt r with
        | error err => rw [hp] at h; simp at h
        | ok p =>
          rw [hp] at h
          dsimp only at h
          by_cases hinc : OIDCClient.includesClaim p "sub" (· = .jStr sub) = true
          · rw [if_pos hinc] at h
            injection h with h
            subst h
            unfold OIDCClient.includesClaim at hinc
            rcases hg : jGet p "sub" with _ | v
            · rw [hg] at hinc; simp at hinc
            · rw [hg] at hinc
              simp only [decide_eq_true_eq] at hinc
              rw [hinc]
          · rw [if_neg hinc] at h; simp at h
      · have hok' : OIDCClient.uiOk r.status = false := by
          revert hok; cases OIDCClient.uiOk r.status <;> simp
        simp [hok'] at h
  · intro e payload hE hok hpayload hsub
    subst hE
    unfold OIDCClient.getUserInfo
    rw [hok, hpayload]
    have hinc : OIDCClient.includesClaim payload "sub" (· = .jStr sub) = false := by
      unfold OIDCClient.includesClaim
      rcases hg : jGet payload "sub" with _ | v
      · rfl
      · rw [hg] at hsub
        simp only [decide_eq_false_iff_not]
        intro hv
        exact hsub (by rw [hv])
    simp [hinc]

/-- Witness for `userInfoSubBinding`: a 2xx JSON UserInfo response with
body `{"sub":"wrong-user","name":"X"}` against ID-token subject "user-1"
fails with the UserInfo `sub` error. -/
theorem userInfoSubBinding_witness :
    (OIDCClient.uiOk 200 = true)
    ∧ (OIDCClient.getUserInfo (some "https://auth.server/userinfo") (fun _ => none) "user-1"
        { status := 200, contentType := some "application/json",
          jsonBody := some (.jobj [("sub", .jStr "wrong-user"), ("name", .jStr "X")]),
          textBody := none }
      = .error (.userInfo "the userInfo response body contained an invalid `sub` claim")) :=
  ⟨by decide,
    (userInfoSubBinding (some "https://auth.server/userinfo") (fun _ => none) "user-1"
      { status := 200, contentType := some "application/json",
        jsonBody := some (.jobj [("sub", .jStr "wrong-user"), ("name", .jStr "X")]),
        textBody := none }).2
      "https://auth.server/userinfo"
      [("sub", .jStr "wrong-user"), ("name", .jStr "X")]
      rfl (by decide) rfl (by decide)⟩

end ClaimC9

section ClaimC10

/-- C10: redirect validation compares only the URL path — whenever the
response URI's pathname equals the configured redirect URI's pathname, the
redirect check passes (validation proceeds to the parameter checks) no
matter what its scheme and host are; and a string input is resolved
against the fixed dummy base `http://ignored`, so a bare path-and-query
string passes the whole validation against an `https` redirect URI on a
different host. -/
theorem redirectPathOnlyValidation :
    (∀ (config : ClientConfig) (url : UrlParts) (opts : GetTokenOptions) (r : String),
      config.redirectUri = some r → url.pathname = (parseAbsoluteUrl r).pathname →
      AuthorizationCodeGrant.validateAuthorizationResponse config url opts
        = AuthorizationCodeGrant.validateResponseParams config url opts)
    ∧ (toUrl (.str "/callback?code=abc")
        = { scheme := "http", host := "ignored", pathname := "/callback", search := "?code=abc" })
    ∧ (AuthorizationCodeGrant.validateAuthorizationResponse
        { clientId := "cid", authorizationEndpointUri := "https://auth.server/auth",
          tokenUri := "https://auth.server/token",
          redirectUri := some "https://client.example/callback" }
        (toUrl (.str "/callback?code=abc")) {}
      = .ok { code := "abc", state := none }) := by
  refine ⟨?_, ?_, ?_⟩
  · intro config url opts r hr hp
    exact validateAuthorizationResponse_eq_params config url opts (Or.inr ⟨r, hr, hp⟩)
  · rfl
  · rfl

/-- Witness for `redirectPathOnlyValidation`: a response URL with matching
path `/callback` but scheme `https` and host `evil.example:8443` passes
the redirect-path check against `https://client.example/callback`. -/
theorem redirectPathOnlyValidation_witness :
    (({ scheme := "https", host := "evil.example:8443", pathname := "/callback",
        search := "?code=abc" } : UrlParts).pathname
      = (parseAbsoluteUrl "https://client.example/callback").pathname)
    ∧ (AuthorizationCodeGrant.validateAuthorizationResponse
        { clientId := "cid", authorizationEndpointUri := "https://auth.server/auth",
          tokenUri := "https://auth.server/token",
          redirectUri := some "https://client.example/callback" }
        { scheme := "https", host := "evil.example:8443", pathname := "/callback",
          search := "?code=abc" } {}
      = AuthorizationCodeGrant.validateResponseParams
          { clientId := "cid", authorizationEndpointUri := "https://auth.server/auth",
            tokenUri := "https://auth.server/token",
            redirectUri := some "https://client.example/callback" }
          { scheme := "https", host := "evil.example:8443", pathname := "/callback",
            search := "?code=abc" } {}) :=
  ⟨by decide,
    redirectPathOnlyValidation.1
      { clientId := "cid", authorizationEndpointUri := "https://auth.server/auth",
        tokenUri := "https://auth.server/token",
        redirectUri := some "https://client.example/callback" }
      { scheme := "https", host := "evil.example:8443", pathname := "/callback",
        search := "?code=abc" }
      {} "https://client.example/callback" rfl (by decide)⟩

end ClaimC10
